import Mathlib

/-!
Shallow embedding of the css-analyzer core (`src/index.js`).

The repository ships a single source file, `src/index.js`, holding the
`analyze` function: a one-pass walk over a css-tree AST that feeds ~30
accumulators and assembles an immutable report.  The helper modules it
imports (`countable-collection.js`, `aggregate-collection.js`,
`context-collection.js`, `selectors/utils.js`, `values/colors.js`, …)
are not part of the provided sources, so they are modelled here from the
specification; each such definition carries a doc comment starting with
`Modelled from the spec:`.  The css-tree parser, walker and the
`@bramus/specificity` calculator are external collaborators: the parser
is modelled by taking the AST (plus comment list, source length and line
range) as input, the walker by an explicit pre-order traversal with a
skip signal and ancestor context, and the specificity/complexity
calculators by oracle fields carried on selector nodes.
-/

/-- The `ratio` helper of `src/index.js` (lines 22–25): `part / total`,
defined as `0` when `total` is `0`.  Named `ratioOf` in this development. -/
def ratioOf (part total : Nat) : ℚ :=
  if total = 0 then 0 else (part : ℚ) / (total : ℚ)

/-- First-seen-order deduplication, the key order used by the JS `Map`/`Set`
based collections: keeps the first occurrence of every element. -/
def firstDedup {α : Type} [DecidableEq α] : List α → List α
  | [] => []
  | x :: xs => x :: (firstDedup xs).filter (fun y => y ≠ x)

/-- Insert into a sorted list of naturals (ascending). -/
def insertSorted (x : Nat) : List Nat → List Nat
  | [] => [x]
  | y :: ys => if x ≤ y then x :: y :: ys else y :: insertSorted x ys

/-- Insertion sort, ascending; used for the median of a numeric aggregator. -/
def insSort : List Nat → List Nat
  | [] => []
  | x :: xs => insertSorted x (insSort xs)

/-- Modelled from the spec: `AggregateCollection`'s mode — the most frequent
sample value, ties broken by first occurrence order (§4.2). -/
def modeOf (l : List Nat) : Nat :=
  (firstDedup l).foldl (fun best k => if l.count k > l.count best then k else best) (l.headD 0)

/-- Modelled from the spec: `AggregateCollection`'s median — the middle value
of the sorted samples, the average of the two middles for even counts, `0`
for the empty sample list (§4.2, §3). -/
def medianOf (l : List Nat) : ℚ :=
  let sorted := insSort l
  let n := l.length
  if n = 0 then 0
  else if n % 2 = 1 then (sorted.getD (n / 2) 0 : ℚ)
  else ((sorted.getD (n / 2 - 1) 0 : Nat) + (sorted.getD (n / 2) 0 : Nat) : ℚ) / 2

/-- Minimum of a list of naturals (`0` for the empty list). -/
def minOf (l : List Nat) : Nat := l.foldl Nat.min (l.headD 0)

/-- Maximum of a list of naturals (`0` for the empty list). -/
def maxOf (l : List Nat) : Nat := l.foldl Nat.max (l.headD 0)

/-- Modelled from the spec: the shape of `AggregateCollection.aggregate()` —
count, sum, mean, mode, median, min and max of the pushed samples (§4.2). -/
structure AggregateStats where
  count : Nat
  sum : Nat
  mean : ℚ
  mode : Nat
  median : ℚ
  min : Nat
  max : Nat
deriving DecidableEq, Repr

/-- Modelled from the spec: `AggregateCollection` (file `aggregate-collection.js`
is not under `src/`) — pushes retain the raw samples; `aggregate()` derives the
statistics, with mean `0` when there are no samples (§4.2). -/
def aggregateOf (l : List Nat) : AggregateStats :=
  { count := l.length
    sum := l.sum
    mean := ratioOf l.sum l.length
    mode := modeOf l
    median := medianOf l
    min := minOf l
    max := maxOf l }

/-- Modelled from the spec: the shape of `CountableCollection.count()` — total
pushes, distinct-key count, per-key counts in first-seen order, and a
uniqueness ratio that is `0` when the total is `0` (§4.1).  The ratio field is
suffixed `Q` (for `ℚ`) in this development. -/
structure CountReport (α : Type) where
  total : Nat
  totalUnique : Nat
  unique : List (α × Nat)
  uniquenessRatioQ : ℚ
deriving DecidableEq, Repr

/-- Modelled from the spec: `CountableCollection` (file
`countable-collection.js` is not under `src/`), realised as the list of pushed
keys; `count()` is derived from it (§4.1). -/
def countOf {α : Type} [DecidableEq α] (l : List α) : CountReport α :=
  let d := firstDedup l
  { total := l.length
    totalUnique := d.length
    unique := d.map (fun k => (k, l.count k))
    uniquenessRatioQ := ratioOf d.length l.length }

/-- Modelled from the spec: one primary-key entry of a `ContextCollection`
count — its total and the per-secondary-key counts (§4.3). -/
structure ContextEntry where
  total : Nat
  byContext : List (String × Nat)
deriving DecidableEq, Repr

/-- Modelled from the spec: the shape of `ContextCollection.count()` (§4.3). -/
structure ContextReport where
  total : Nat
  totalUnique : Nat
  unique : List (String × ContextEntry)
  uniquenessRatioQ : ℚ
deriving DecidableEq, Repr

/-- Modelled from the spec: `ContextCollection` (file `context-collection.js`
is not under `src/`), realised as the list of pushed
(primary key, secondary key) pairs; `count()` is derived from it (§4.3). -/
def contextOf (l : List (String × String)) : ContextReport :=
  let keys := firstDedup (l.map Prod.fst)
  { total := l.length
    totalUnique := keys.length
    unique := keys.map (fun k =>
      let secs := (l.filter (fun p => p.1 = k)).map Prod.snd
      (k, { total := secs.length
            byContext := (firstDedup secs).map (fun c => (c, secs.count c)) }))
    uniquenessRatioQ := ratioOf keys.length l.length }

/-- A selector specificity: the (a, b, c) triple of id / class / type weights. -/
def Specificity := Nat × Nat × Nat
deriving DecidableEq, Repr

/-- Modelled from the spec: `compareSpecificity` from `selectors/utils.js`
(not under `src/`) — lexicographic comparison of the (a, b, c) components,
each ascending; negative when the first tuple is smaller (§3, §4.5). -/
def compareSpecificity (x y : Specificity) : Int :=
  if x.1 ≠ y.1 then (x.1 : Int) - (y.1 : Int)
  else if x.2.1 ≠ y.2.1 then (x.2.1 : Int) - (y.2.1 : Int)
  else (x.2.2 : Int) - (y.2.2 : Int)

/-- Character-list suffix test (the JS `endsWith(search, str)` helper of
`string-utils.js`, modelled from the spec's uses, e.g. names ending in
`keyframes`). -/
def strEndsWith (search s : String) : Bool :=
  List.isPrefixOf search.data.reverse s.data.reverse

/-- Character-list prefix test (the JS `startsWith(search, str)` helper). -/
def strStartsWith (search s : String) : Bool :=
  List.isPrefixOf search.data s.data

/-- Lower-case a string character-wise. -/
def toLowerStr (s : String) : String := ⟨s.data.map Char.toLower⟩

/-- Modelled from the spec: `strEquals` from `string-utils.js` (not under
`src/`) — case-insensitive string equality, as CSS names are
case-insensitive. -/
def strEquals (a b : String) : Bool := toLowerStr a == toLowerStr b

/-- Whitespace predicate for trimming. -/
def isWsChar (c : Char) : Bool := c = ' ' || c = '\t' || c = '\n' || c = '\r'

/-- Trim leading and trailing whitespace (the `stringifyNode` helper of
`src/index.js` trims the source slice of a node). -/
def trimStr (s : String) : String :=
  ⟨((s.data.dropWhile isWsChar).reverse.dropWhile isWsChar).reverse⟩

/-- Split a character list on a separator character. -/
def splitCharList (sep : Char) : List Char → List (List Char)
  | [] => [[]]
  | c :: cs =>
    let r := splitCharList sep cs
    if c = sep then [] :: r else (c :: r.headD []) :: r.tail

/-- Split a string on a separator character (the JS `String.split`). -/
def splitStr (sep : Char) (s : String) : List String :=
  (splitCharList sep s.data).map (fun cs => (⟨cs⟩ : String))

/-- Does `needle` occur as a contiguous substring of the character list? -/
def listHasInfix (needle : List Char) : List Char → Bool
  | [] => List.isPrefixOf needle []
  | c :: cs => List.isPrefixOf needle (c :: cs) || listHasInfix needle cs

/-- Substring test on strings. -/
def containsSub (needle hay : String) : Bool := listHasInfix needle.data hay.data

/-- Modelled from the spec: `hasVendorPrefix` from `vendor-prefix.js` (not
under `src/`) — the key begins with a known vendor prefix token (§4.4). -/
def isVendorPrefixed (s : String) : Bool :=
  strStartsWith "-webkit-" s || strStartsWith "-moz-" s ||
    strStartsWith "-ms-" s || strStartsWith "-o-" s

/-- Modelled from the spec: `isHack` from `properties/property-utils.js` (not
under `src/`) — a legacy property hack, a leading underscore or asterisk
(§4.4). -/
def isHackProperty (s : String) : Bool :=
  strStartsWith "_" s || strStartsWith "*" s

/-- Modelled from the spec: `isCustom` from `properties/property-utils.js`
(not under `src/`) — the property begins with the custom-property sigil
`--` (§4.4). -/
def isCustomProperty (s : String) : Bool := strStartsWith "--" s

/-- Modelled from the spec: `isProperty` from `properties/property-utils.js`
(not under `src/`) — case-insensitive property-name comparison. -/
def isPropertyNamed (a b : String) : Bool := strEquals a b

/-- Modelled from the spec: the named-colors lookup set of `values/colors.js`
(not under `src/`); a representative fixed set of CSS named colors. -/
def namedColors : List String :=
  ["red", "blue", "green", "white", "black", "tomato", "rebeccapurple",
   "aliceblue", "lightgoldenrodyellow"]

/-- Modelled from the spec: the CSS Level-4 color-keywords lookup set of
`values/colors.js` (not under `src/`). -/
def colorKeywords : List String := ["currentcolor", "transparent"]

/-- Modelled from the spec: the system-colors lookup set of
`values/colors.js` (not under `src/`). -/
def systemColors : List String :=
  ["canvas", "canvastext", "buttonface", "buttontext", "linktext",
   "highlight", "highlighttext"]

/-- Modelled from the spec: the color-function lookup set of
`values/colors.js` (not under `src/`). -/
def colorFunctions : List String :=
  ["rgb", "rgba", "hsl", "hsla", "hwb", "lab", "lch", "oklab", "oklch",
   "color", "color-mix"]

/-- Modelled from the spec: `getEmbedType` from `stylesheet/stylesheet.js`
(not under `src/`) — the declared content category of a `data:` URI, the text
between `data:` and the first `;` or `,` (§4.4). -/
def getEmbedType (s : String) : String :=
  ⟨(s.data.drop 5).takeWhile (fun c => c ≠ ';' && c ≠ ',')⟩

/-- The node kinds of the css-tree AST that `analyze` dispatches on; every
other kind is mapped to `Other` (the switch has no case for it). -/
inductive NodeType where
  | StyleSheet
  | Atrule
  | AtrulePrelude
  | Rule
  | SelectorList
  | Selector
  | Block
  | Declaration
  | Value
  | Dimension
  | Url
  | Hash
  | Identifier
  | Function
  | Operator
  | Raw
  | Other
deriving DecidableEq, Repr

/-- The `important` flag of a css-tree declaration: absent/false, `true`
(for `!important`), or a string (for hacks such as `!ie`). -/
inductive Important where
  | bool (b : Bool)
  | str (s : String)
deriving DecidableEq, Repr

/-- The kind-specific payload of a css-tree node.  `text` is the raw source
slice of the node (source slicing is a trivial wrapper per the spec, so the
slice travels with the node).  The fields `specA`/`specB`/`specC`,
`complexity`/`isPrefixed` and `isA11y` are oracles for the external
`@bramus/specificity` calculator and the black-box `getComplexity` /
`isAccessibility` heuristics of `selectors/utils.js` (not under `src/`),
whose results the engine only consumes. -/
structure NodeData where
  name : String := ""
  value : String := ""
  unit : String := ""
  property : String := ""
  important : Important := .bool false
  text : String := ""
  specA : Nat := 0
  specB : Nat := 0
  specC : Nat := 0
  complexity : Nat := 0
  isPrefixed : Bool := false
  isA11y : Bool := false
deriving DecidableEq, Repr

mutual
/-- A css-tree AST node: kind, payload and children (in document order; an
at-rule's prelude and block, and a rule's selector list and block, appear
among the children, as the walker visits them). -/
inductive CssNode where
  | mk (ntype : NodeType) (data : NodeData) (children : CssNodeList)

/-- A list of css-tree AST nodes (a separate inductive so that all
traversals are structurally recursive). -/
inductive CssNodeList where
  | nil
  | cons (head : CssNode) (tail : CssNodeList)
end

def CssNode.ntype : CssNode → NodeType
  | .mk t _ _ => t

def CssNode.data : CssNode → NodeData
  | .mk _ d _ => d

def CssNode.children : CssNode → CssNodeList
  | .mk _ _ cs => cs

def CssNodeList.toList : CssNodeList → List CssNode
  | .nil => []
  | .cons n ns => n :: ns.toList

def CssNodeList.length (ns : CssNodeList) : Nat := ns.toList.length

def forestOf : List CssNode → CssNodeList
  | [] => .nil
  | n :: ns => .cons n (forestOf ns)

/-- The trimmed source text of a node — `stringifyNode` of `src/index.js`. -/
def stringifyNode (n : CssNode) : String := trimStr n.data.text

/-- The untrimmed source text of a node — `stringifyNodePlain` of
`src/index.js`. -/
def stringifyNodePlain (n : CssNode) : String := n.data.text

/-- First child of a given kind (used to find an at-rule's prelude/block and
a rule's selector list/block, which css-tree stores in dedicated fields). -/
def findChild (t : NodeType) (n : CssNode) : Option CssNode :=
  n.children.toList.find? (fun c => c.ntype = t)

/-- An at-rule's prelude node: css-tree stores either an `AtrulePrelude` or a
`Raw` node (or null) in the `prelude` field. -/
def atrulePreludeOf (n : CssNode) : Option CssNode :=
  n.children.toList.find? (fun c => c.ntype = .AtrulePrelude || c.ntype = .Raw)

/-- The trimmed prelude text of an at-rule (empty when there is none). -/
def preludeText (n : CssNode) : String :=
  ((atrulePreludeOf n).map stringifyNode).getD ""

mutual
/-- Modelled from the spec: `isAstVendorPrefixed` from `values/vendor-prefix.js`
(not under `src/`) — detects vendor-prefixed function/value shapes, i.e. some
node of the value subtree carries a vendor-prefixed name (§4.6). -/
def isAstVendorPrefixed : CssNode → Bool
  | .mk _ d cs => isVendorPrefixed d.name || anyVendorPrefixed cs

def anyVendorPrefixed : CssNodeList → Bool
  | .nil => false
  | .cons n ns => isAstVendorPrefixed n || anyVendorPrefixed ns
end

/-- Modelled from the spec: `isValueKeyword` from `values/values.js` (not
under `src/`) — the value is a bare (non-color) CSS-wide/none keyword
(§4.6 "skip entirely if the value is a bare non-color keyword"). -/
def isValueKeyword (n : CssNode) : Bool :=
  match n.children.toList with
  | [c] => c.ntype = .Identifier &&
      ["inherit", "initial", "unset", "revert", "revert-layer", "auto",
        "none"].contains (toLowerStr c.data.name)
  | _ => false

/-- Modelled from the spec: `isIe9Hack` from `values/browserhacks.js` (not
under `src/`) — the value's trailing raw text ends with the literal `\9`
(§4.4). -/
def isIe9Hack (n : CssNode) : Bool := strEndsWith "\\9" (trimStr n.data.text)

/-- Modelled from the spec: `isSystemFont` from
`values/destructure-font-shorthand.js` (not under `src/`) — the value is a
pure system-font keyword such as `caption` or `menu` (§4.4). -/
def isSystemFont (n : CssNode) : Bool :=
  match n.children.toList with
  | [c] => c.ntype = .Identifier &&
      ["caption", "icon", "menu", "message-box", "small-caption",
        "status-bar"].contains (toLowerStr c.data.name)
  | _ => false

/-- Modelled from the spec: `destructure` from
`values/destructure-font-shorthand.js` (not under `src/`) — extracts the
font-size, line-height and font-family sub-strings of a `font` shorthand
when present (§4.4): the first dimension-like child is the font-size, the
child following a `/` operator is the line-height, and a trailing
identifier is the font-family. -/
def destructureFont (n : CssNode) : Option String × Option String × Option String :=
  let cs := n.children.toList
  let fontSize := (cs.find? (fun c => c.ntype = .Dimension)).map stringifyNode
  let lineHeight :=
    match cs.findIdx? (fun c => c.ntype = .Operator && trimStr c.data.text = "/") with
    | some i => (cs.drop (i + 1)).head?.map stringifyNode
    | none => none
  let fontFamily :=
    ((cs.reverse.find? (fun c => c.ntype = .Identifier)).map stringifyNode)
  (fontSize, lineHeight, fontFamily)

/-- Modelled from the spec: the easing keywords recognised by
`analyzeAnimation` of `values/animations.js` (not under `src/`). -/
def easingKeywords : List String :=
  ["linear", "ease", "ease-in", "ease-out", "ease-in-out",
   "step-start", "step-end"]

/-- Modelled from the spec: `analyzeAnimation` from `values/animations.js`
(not under `src/`) — partitions the value's children into durations
(numeric + unit tokens) and timing functions (easing keywords and
`cubic-bezier(...)`/`steps(...)` calls) (§4.4). -/
def analyzeAnimation (cs : List CssNode) : List String × List String :=
  let times := (cs.filter (fun c => c.ntype = .Dimension)).map stringifyNode
  let fns := (cs.filter (fun c =>
    (c.ntype = .Identifier && easingKeywords.contains (toLowerStr c.data.name)) ||
      (c.ntype = .Function &&
        (strEquals "cubic-bezier" c.data.name || strEquals "steps" c.data.name)))).map
    stringifyNode
  (times, fns)

/-- Modelled from the spec: `isMediaBrowserhack` from `atrules/atrules.js`
(not under `src/`) — a textual pattern match on the prelude's source for
vendor-specific legacy feature tokens (§4.4, §8 scenario with
`-ms-high-contrast`). -/
def isMediaBrowserhack (prelude : String) : Bool :=
  containsSub "-ms-high-contrast" prelude || containsSub "\\0" prelude ||
    containsSub "-moz-device-pixel-ratio" prelude

/-- Modelled from the spec: `isSupportsBrowserhack` from `atrules/atrules.js`
(not under `src/`) — a textual pattern match on the prelude's source (§4.4). -/
def isSupportsBrowserhack (prelude : String) : Bool :=
  containsSub "-webkit-appearance" prelude || containsSub "-moz-appearance" prelude

/-- The declaration data the walker exposes as `this.declaration`. -/
structure DeclInfo where
  property : String
  important : Important
deriving DecidableEq, Repr

/-- The ancestor context the external walker exposes to the visit callback:
nearest enclosing at-rule (its name), nearest enclosing declaration, and
whether the current position lies inside an at-rule prelude (§6). -/
structure Ctx where
  atrule : Option String := none
  declaration : Option DeclInfo := none
  atrulePrelude : Bool := false
deriving DecidableEq, Repr

/-- Is the current position lexically inside a `*keyframes` at-rule —
`this.atrule && endsWith('keyframes', this.atrule.name)`. -/
def inKeyframes (ctx : Ctx) : Bool :=
  match ctx.atrule with
  | some name => strEndsWith "keyframes" name
  | none => false

/-- The context for walking the children of a node: entering an at-rule,
at-rule prelude or declaration updates the corresponding context slot. -/
def childCtx (ctx : Ctx) (t : NodeType) (d : NodeData) : Ctx :=
  match t with
  | .Atrule => { ctx with atrule := some d.name }
  | .AtrulePrelude => { ctx with atrulePrelude := true }
  | .Declaration => { ctx with declaration := some ⟨d.property, d.important⟩ }
  | _ => ctx

/-- The accumulators mutated by the nested color sub-traversal of a
declaration value (`src/index.js` lines 420–485). -/
structure ColorAcc where
  colors : List (String × String)
  colorFormats : List String
  gradients : List String
deriving DecidableEq, Repr

/-- One step of the nested color sub-traversal (the callback of the inner
`walk(node, …)`, `src/index.js` lines 420–485): hash colors record a hex
format and prune; identifiers of plausible color-name length are tested
against named colors, then CSS Level-4 color keywords, then system colors,
recording without pruning on a match and pruning on a mismatch; `var()` is
pruned, color functions and gradients are recorded, and any other function
falls through so nested colors are still found.  Returns the updated
accumulator and the skip signal. -/
def colorVisit (property : String) (acc : ColorAcc) (t : NodeType) (d : NodeData) :
    ColorAcc × Bool :=
  match t with
  | .Hash =>
    let hexLength :=
      if strEndsWith "\\9" d.value then d.value.length - 2 else d.value.length
    ({ acc with
        colors := acc.colors ++ [("#" ++ d.value, property)]
        colorFormats := acc.colorFormats ++ ["hex" ++ toString hexLength] }, true)
  | .Identifier =>
    if d.name.length > 20 || d.name.length < 3 then (acc, true)
    else if namedColors.contains d.name then
      ({ acc with
          colors := acc.colors ++ [(trimStr d.text, property)]
          colorFormats := acc.colorFormats ++ ["named"] }, false)
    else if colorKeywords.contains d.name then
      ({ acc with
          colors := acc.colors ++ [(trimStr d.text, property)]
          colorFormats := acc.colorFormats ++ [toLowerStr d.name] }, false)
    else if systemColors.contains d.name then
      ({ acc with
          colors := acc.colors ++ [(trimStr d.text, property)]
          colorFormats := acc.colorFormats ++ ["system"] }, false)
    else (acc, true)
  | .Function =>
    if strEquals "var" d.name then (acc, true)
    else if colorFunctions.contains d.name then
      ({ acc with
          colors := acc.colors ++ [(trimStr d.text, property)]
          colorFormats := acc.colorFormats ++ [toLowerStr d.name] }, false)
    else if strEndsWith "gradient" d.name then
      ({ acc with gradients := acc.gradients ++ [trimStr d.text] }, false)
    else (acc, false)
  | _ => (acc, false)

mutual
/-- The nested color sub-traversal of a declaration value: pre-order with the
skip signal of `colorVisit`. -/
def colorWalkNode (property : String) (acc : ColorAcc) : CssNode → ColorAcc
  | .mk t d cs =>
    let r := colorVisit property acc t d
    if r.2 then r.1 else colorWalkList property r.1 cs

def colorWalkList (property : String) (acc : ColorAcc) : CssNodeList → ColorAcc
  | .nil => acc
  | .cons n ns => colorWalkList property (colorWalkNode property acc n) ns
end

/-- The at-rule accumulators of `analyze` (`src/index.js` lines 73–87). -/
structure AtruleAcc where
  totalAtRules : Nat := 0
  fontfaces : List (List (String × String)) := []
  layers : List String := []
  imports : List String := []
  medias : List String := []
  mediaBrowserhacks : List String := []
  charsets : List String := []
  supports : List String := []
  supportsBrowserhacks : List String := []
  keyframes : List String := []
  prefixedKeyframes : List String := []
  containers : List String := []
deriving DecidableEq, Repr

/-- The rule accumulators of `analyze` (`src/index.js` lines 88–94). -/
structure RuleAcc where
  totalRules : Nat := 0
  emptyRules : Nat := 0
  ruleSizes : List Nat := []
  selectorsPerRule : List Nat := []
  declarationsPerRule : List Nat := []
deriving DecidableEq, Repr

/-- The selector accumulators of `analyze` (`src/index.js` lines 95–111). -/
structure SelectorAcc where
  keyframeSelectors : List String := []
  uniqueSelectors : List String := []
  prefixedSelectors : List String := []
  maxSpecificity : Option Specificity := none
  minSpecificity : Option Specificity := none
  specificityA : List Nat := []
  specificityB : List Nat := []
  specificityC : List Nat := []
  uniqueSpecificities : List String := []
  selectorComplexities : List Nat := []
  specificities : List Specificity := []
  ids : List String := []
  a11y : List String := []
deriving DecidableEq, Repr

/-- The declaration accumulators of `analyze` (`src/index.js` lines 113–118). -/
structure DeclarationAcc where
  uniqueDeclarations : List String := []
  totalDeclarations : Nat := 0
  importantDeclarations : Nat := 0
  importantsInKeyframes : Nat := 0
deriving DecidableEq, Repr

/-- The property accumulators of `analyze` (`src/index.js` lines 118–126). -/
structure PropertyAcc where
  properties : List String := []
  propertyHacks : List String := []
  propertyVendorPrefixes : List String := []
  customProperties : List String := []
  propertyComplexities : List Nat := []
  importantCustomProperties : List String := []
deriving DecidableEq, Repr

/-- The value accumulators of `analyze` (`src/index.js` lines 127–141). -/
structure ValueAcc where
  vendorPrefixedValues : List String := []
  valueBrowserhacks : List String := []
  zindex : List String := []
  textShadows : List String := []
  boxShadows : List String := []
  fontFamilies : List String := []
  fontSizes : List String := []
  lineHeights : List String := []
  timingFunctions : List String := []
  durations : List String := []
  colors : List (String × String) := []
  colorFormats : List String := []
  units : List (String × String) := []
  gradients : List String := []
deriving DecidableEq, Repr

/-- The embedded-content accumulators of `analyze` (`src/index.js` lines
50–56): total count, total size and the per-type (count, size) map in
first-seen order. -/
structure EmbedAcc where
  embeds : List String := []
  embedSize : Nat := 0
  embedTypesTotal : Nat := 0
  embedTypesUnique : List (String × Nat × Nat) := []
deriving DecidableEq, Repr

/-- The full accumulator state of one `analyze` call (`src/index.js` lines
47–141): the closure-captured mutable variables, grouped by report section
as in the source's comments, created fresh per call. -/
structure AnalyzerState where
  atrules : AtruleAcc := {}
  rules : RuleAcc := {}
  selectors : SelectorAcc := {}
  declarations : DeclarationAcc := {}
  props : PropertyAcc := {}
  vals : ValueAcc := {}
  embedded : EmbedAcc := {}
deriving DecidableEq, Repr

/-- The `Atrule` case of the dispatcher (`src/index.js` lines 145–206). -/
def visitAtrule (a : AtruleAcc) (n : CssNode) : AtruleAcc :=
  let a := { a with totalAtRules := a.totalAtRules + 1 }
  let atRuleName := n.data.name
  if atRuleName = "font-face" then
    let descriptors := (((findChild .Block n).map (fun b => b.children.toList)).getD
      []).filterMap (fun descriptor =>
        if descriptor.ntype = .Declaration then
          some (descriptor.data.property,
            ((findChild .Value descriptor).or (findChild .Raw descriptor)).map
              stringifyNode |>.getD "")
        else none)
    { a with fontfaces := a.fontfaces ++ [descriptors] }
  else if atRuleName = "media" then
    let prelude := preludeText n
    let a := { a with medias := a.medias ++ [prelude] }
    if isMediaBrowserhack prelude then
      { a with mediaBrowserhacks := a.mediaBrowserhacks ++ [prelude] }
    else a
  else if atRuleName = "supports" then
    let prelude := preludeText n
    let a := { a with supports := a.supports ++ [prelude] }
    if isSupportsBrowserhack prelude then
      { a with supportsBrowserhacks := a.supportsBrowserhacks ++ [prelude] }
    else a
  else if strEndsWith "keyframes" atRuleName then
    let name := "@" ++ atRuleName ++ " " ++ preludeText n
    let a :=
      if isVendorPrefixed atRuleName then
        { a with prefixedKeyframes := a.prefixedKeyframes ++ [name] }
      else a
    { a with keyframes := a.keyframes ++ [name] }
  else if atRuleName = "import" then
    { a with imports := a.imports ++ [preludeText n] }
  else if atRuleName = "charset" then
    { a with charsets := a.charsets ++ [preludeText n] }
  else if atRuleName = "container" then
    { a with containers := a.containers ++ [preludeText n] }
  else if atRuleName = "layer" then
    { a with layers := a.layers ++ (splitStr ',' (preludeText n)).map trimStr }
  else a

/-- The `Rule` case of the dispatcher (`src/index.js` lines 207–221). -/
def visitRule (r : RuleAcc) (n : CssNode) : RuleAcc :=
  let numSelectors : Nat :=
    ((findChild .SelectorList n).map (fun p => p.children.length)).getD 0
  let numDeclarations : Nat :=
    ((findChild .Block n).map (fun b => b.children.length)).getD 0
  let r := { r with
    ruleSizes := r.ruleSizes ++ [numSelectors + numDeclarations]
    selectorsPerRule := r.selectorsPerRule ++ [numSelectors]
    declarationsPerRule := r.declarationsPerRule ++ [numDeclarations]
    totalRules := r.totalRules + 1 }
  if numDeclarations = 0 then { r with emptyRules := r.emptyRules + 1 } else r

/-- The `Selector` case of the dispatcher (`src/index.js` lines 222–279):
keyframe selectors are only counted and pruned; any other selector feeds the
specificity, complexity, id, accessibility, prefix and uniqueness
accumulators and updates the running min/max, and is always pruned so that
selector lists nested in `:is()`/`:where()` are not visited again. -/
def visitSelector (ctx : Ctx) (sel : SelectorAcc) (d : NodeData) : SelectorAcc :=
  let selector := trimStr d.text
  if inKeyframes ctx then
    { sel with keyframeSelectors := sel.keyframeSelectors ++ [selector] }
  else
    let specificity : Specificity := (d.specA, d.specB, d.specC)
    let sel := { sel with
      ids := if specificity.1 > 0 then sel.ids ++ [selector] else sel.ids }
    let sel := { sel with
      a11y := if d.isA11y then sel.a11y ++ [selector] else sel.a11y }
    let sel := { sel with
      prefixedSelectors :=
        if d.isPrefixed then sel.prefixedSelectors ++ [selector]
        else sel.prefixedSelectors }
    let sel := { sel with
      uniqueSelectors := sel.uniqueSelectors ++ [selector]
      selectorComplexities := sel.selectorComplexities ++ [d.complexity]
      uniqueSpecificities := sel.uniqueSpecificities ++
        [toString specificity.1 ++ "," ++ toString specificity.2.1 ++ "," ++
          toString specificity.2.2] }
    let sel := { sel with
      maxSpecificity :=
        if sel.maxSpecificity = none then some specificity else sel.maxSpecificity }
    let sel := { sel with
      minSpecificity :=
        if sel.minSpecificity = none then some specificity else sel.minSpecificity }
    let sel := { sel with
      specificityA := sel.specificityA ++ [specificity.1]
      specificityB := sel.specificityB ++ [specificity.2.1]
      specificityC := sel.specificityC ++ [specificity.2.2] }
    let sel := { sel with
      minSpecificity :=
        match sel.minSpecificity with
        | some m =>
          if compareSpecificity m specificity < 0 then some specificity else some m
        | none => none }
    let sel := { sel with
      maxSpecificity :=
        match sel.maxSpecificity with
        | some m =>
          if compareSpecificity m specificity > 0 then some specificity else some m
        | none => none }
    { sel with specificities := sel.specificities ++ [specificity] }

/-- The `Dimension` case of the dispatcher (`src/index.js` lines 280–295):
only dimensions inside a declaration are recorded (unit with the owning
property, an IE9 `\9` suffix stripped), and their subtree is pruned. -/
def visitDimension (ctx : Ctx) (v : ValueAcc) (d : NodeData) : ValueAcc × Bool :=
  match ctx.declaration with
  | none => (v, false)
  | some decl =>
    if strEndsWith "\\9" d.unit then
      ({ v with units := v.units ++ [(d.unit.take (d.unit.length - 2), decl.property)] },
        true)
    else
      ({ v with units := v.units ++ [(d.unit, decl.property)] }, true)

/-- The `Url` case of the dispatcher (`src/index.js` lines 296–321): `data:`
URIs are sniffed for their embedded type and size. -/
def visitUrl (e : EmbedAcc) (d : NodeData) : EmbedAcc :=
  if strStartsWith "data:" d.value then
    let embed := d.value
    let size := embed.length
    let type := getEmbedType embed
    let uniq :=
      if e.embedTypesUnique.any (fun en => en.1 = type) then
        e.embedTypesUnique.map (fun en =>
          if en.1 = type then (en.1, en.2.1 + 1, en.2.2 + size) else en)
      else e.embedTypesUnique ++ [(type, 1, size)]
    { embeds := e.embeds ++ [embed]
      embedSize := e.embedSize + size
      embedTypesTotal := e.embedTypesTotal + 1
      embedTypesUnique := uniq }
  else e

/-- The `Value` case of the dispatcher (`src/index.js` lines 322–487): bare
keywords are skipped; vendor-prefixed shapes and `!ie`/`\9` hacks are
recorded; then the owning property selects a special case (`z-index` pruning,
font destructuring, animation splitting, shadow recording, …); finally the
nested color sub-traversal extracts colors and gradients. -/
def visitValue (ctx : Ctx) (v : ValueAcc) (n : CssNode) : ValueAcc × Bool :=
  if isValueKeyword n then (v, false)
  else
    match ctx.declaration with
    | none => (v, false)
    | some decl =>
      let property := decl.property
      let v :=
        if isAstVendorPrefixed n then
          { v with vendorPrefixedValues := v.vendorPrefixedValues ++ [stringifyNode n] }
        else v
      let v :=
        match decl.important with
        | .str imp =>
          { v with valueBrowserhacks :=
              v.valueBrowserhacks ++ [stringifyNodePlain n ++ "!" ++ imp] }
        | .bool _ => v
      let v :=
        if isIe9Hack n then
          { v with valueBrowserhacks := v.valueBrowserhacks ++ [stringifyNode n] }
        else v
      let withColors (v : ValueAcc) : ValueAcc × Bool :=
        let acc := colorWalkNode property ⟨v.colors, v.colorFormats, v.gradients⟩ n
        ({ v with
            colors := acc.colors
            colorFormats := acc.colorFormats
            gradients := acc.gradients }, false)
      if isPropertyNamed "z-index" property then
        ({ v with zindex := v.zindex ++ [stringifyNode n] }, true)
      else if isPropertyNamed "font" property then
        if isSystemFont n then (v, false)
        else
          let parts := destructureFont n
          let v := match parts.2.2 with
            | some fam => { v with fontFamilies := v.fontFamilies ++ [fam] }
            | none => v
          let v := match parts.1 with
            | some size => { v with fontSizes := v.fontSizes ++ [size] }
            | none => v
          let v := match parts.2.1 with
            | some lh => { v with lineHeights := v.lineHeights ++ [lh] }
            | none => v
          (v, false)
      else if isPropertyNamed "font-size" property then
        if isSystemFont n then (v, false)
        else ({ v with fontSizes := v.fontSizes ++ [stringifyNode n] }, false)
      else if isPropertyNamed "font-family" property then
        if isSystemFont n then (v, false)
        else ({ v with fontFamilies := v.fontFamilies ++ [stringifyNode n] }, false)
      else if isPropertyNamed "line-height" property then
        withColors { v with lineHeights := v.lineHeights ++ [stringifyNode n] }
      else if isPropertyNamed "transition" property || isPropertyNamed "animation" property then
        let parts := analyzeAnimation n.children.toList
        ({ v with
            durations := v.durations ++ parts.1
            timingFunctions := v.timingFunctions ++ parts.2 }, false)
      else if isPropertyNamed "animation-duration" property ||
          isPropertyNamed "transition-duration" property then
        if n.children.length > 1 then
          ({ v with durations := v.durations ++
              ((n.children.toList.filter (fun c => c.ntype ≠ .Operator)).map
                stringifyNode) }, false)
        else ({ v with durations := v.durations ++ [stringifyNode n] }, false)
      else if isPropertyNamed "transition-timing-function" property ||
          isPropertyNamed "animation-timing-function" property then
        if n.children.length > 1 then
          ({ v with timingFunctions := v.timingFunctions ++
              ((n.children.toList.filter (fun c => c.ntype ≠ .Operator)).map
                stringifyNode) }, false)
        else ({ v with timingFunctions := v.timingFunctions ++ [stringifyNode n] }, false)
      else if isPropertyNamed "text-shadow" property then
        withColors (if ¬isValueKeyword n then
            { v with textShadows := v.textShadows ++ [stringifyNode n] }
          else v)
      else if isPropertyNamed "box-shadow" property then
        withColors (if ¬isValueKeyword n then
            { v with boxShadows := v.boxShadows ++ [stringifyNode n] }
          else v)
      else withColors v

/-- The `Declaration` case of the dispatcher (`src/index.js` lines 488–527):
declarations inside an at-rule prelude are skipped entirely; otherwise the
declaration is counted, recorded for uniqueness and importance, and its
property is classified (vendor-prefixed / hack / custom / plain). -/
def visitDeclaration (ctx : Ctx) (dec : DeclarationAcc) (p : PropertyAcc)
    (d : NodeData) : (DeclarationAcc × PropertyAcc) × Bool :=
  if ctx.atrulePrelude then ((dec, p), true)
  else
    let dec := { dec with
      totalDeclarations := dec.totalDeclarations + 1
      uniqueDeclarations := dec.uniqueDeclarations ++ [trimStr d.text] }
    let dec :=
      if d.important = .bool true then
        let dec := { dec with importantDeclarations := dec.importantDeclarations + 1 }
        if inKeyframes ctx then
          { dec with importantsInKeyframes := dec.importantsInKeyframes + 1 }
        else dec
      else dec
    let property := d.property
    let p := { p with properties := p.properties ++ [property] }
    let p :=
      if isVendorPrefixed property then
        { p with
          propertyVendorPrefixes := p.propertyVendorPrefixes ++ [property]
          propertyComplexities := p.propertyComplexities ++ [2] }
      else if isHackProperty property then
        { p with
          propertyHacks := p.propertyHacks ++ [property]
          propertyComplexities := p.propertyComplexities ++ [2] }
      else if isCustomProperty property then
        let p := { p with
          customProperties := p.customProperties ++ [property]
          propertyComplexities := p.propertyComplexities ++ [2] }
        if d.important = .bool true then
          { p with importantCustomProperties := p.importantCustomProperties ++ [property] }
        else p
      else { p with propertyComplexities := p.propertyComplexities ++ [1] }
    ((dec, p), false)

/-- One visit of the traversal callback (`src/index.js` lines 143–529): the
switch on the node kind.  Returns the updated accumulators and the skip
signal. -/
def visitNode (ctx : Ctx) (s : AnalyzerState) (n : CssNode) : AnalyzerState × Bool :=
  match n.ntype with
  | .Atrule => ({ s with atrules := visitAtrule s.atrules n }, false)
  | .Rule => ({ s with rules := visitRule s.rules n }, false)
  | .Selector => ({ s with selectors := visitSelector ctx s.selectors n.data }, true)
  | .Dimension =>
    let r := visitDimension ctx s.vals n.data
    ({ s with vals := r.1 }, r.2)
  | .Url => ({ s with embedded := visitUrl s.embedded n.data }, false)
  | .Value =>
    let r := visitValue ctx s.vals n
    ({ s with vals := r.1 }, r.2)
  | .Declaration =>
    let r := visitDeclaration ctx s.declarations s.props n.data
    ({ s with declarations := r.1.1, props := r.1.2 }, r.2)
  | _ => (s, false)

mutual
/-- The external traversal primitive applied to the dispatcher: pre-order,
honouring the skip signal, threading the ancestor context (§6). -/
def walkNode (ctx : Ctx) (s : AnalyzerState) : CssNode → AnalyzerState
  | .mk t d cs =>
    let r := visitNode ctx s (.mk t d cs)
    if r.2 then r.1 else walkList (childCtx ctx t d) r.1 cs

def walkList (ctx : Ctx) (s : AnalyzerState) : CssNodeList → AnalyzerState
  | .nil => s
  | .cons n ns => walkList ctx (walkNode ctx s n) ns
end

/-- The embedded-content size sub-report (`src/index.js` lines 557–560). -/
structure EmbedSizeReport where
  total : Nat
  ratioQ : ℚ
deriving DecidableEq, Repr

/-- The embedded-content types sub-report (`src/index.js` lines 561–566):
unique entries are (type, count, size) in first-seen order. -/
structure EmbedTypesReport where
  total : Nat
  totalUnique : Nat
  uniquenessRatioQ : ℚ
  unique : List (String × Nat × Nat)
deriving DecidableEq, Repr

/-- The embedded-content report (`src/index.js` lines 556–567). -/
structure EmbeddedContentReport extends CountReport String where
  size : EmbedSizeReport
  types : EmbedTypesReport
deriving DecidableEq, Repr

/-- The comments sub-report (`src/index.js` lines 552–555). -/
structure CommentsReport where
  total : Nat
  size : Nat
deriving DecidableEq, Repr

/-- The `stylesheet` section (`src/index.js` lines 548–568). -/
structure StylesheetReport where
  sourceLinesOfCode : Nat
  linesOfCode : Nat
  size : Nat
  comments : CommentsReport
  embeddedContent : EmbeddedContentReport
deriving DecidableEq, Repr

/-- The `atrules.fontface` section (`src/index.js` lines 570–575): the
records are reported as-is, with `totalUnique` equal to `total`. -/
structure FontfaceReport where
  total : Nat
  totalUnique : Nat
  unique : List (List (String × String))
  uniquenessRatioQ : ℚ
deriving DecidableEq, Repr

/-- A countable collection report with a browserhacks sub-report
(`atrules.media`, `atrules.supports`). -/
structure BrowserhackCount extends CountReport String where
  browserhacks : CountReport String
deriving DecidableEq, Repr

/-- The `atrules.keyframes.prefixed` sub-report (`src/index.js` 592–595). -/
structure PrefixedKeyframesReport extends CountReport String where
  ratioQ : ℚ
deriving DecidableEq, Repr

/-- The `atrules.keyframes` section (`src/index.js` lines 590–596). -/
structure KeyframesAtruleReport extends CountReport String where
  prefixed : PrefixedKeyframesReport
deriving DecidableEq, Repr

/-- The `atrules` section (`src/index.js` lines 569–599).  The `import`
sub-report is named `imports` here (`import` is reserved in Lean). -/
structure AtrulesReport where
  fontface : FontfaceReport
  imports : CountReport String
  media : BrowserhackCount
  charset : CountReport String
  supports : BrowserhackCount
  keyframes : KeyframesAtruleReport
  container : CountReport String
  layer : CountReport String
deriving DecidableEq, Repr

/-- A (total, ratio) pair (`rules.empty`, `declarations.unique`,
`declarations.importants.inKeyframes`). -/
structure TotalRatio where
  total : Nat
  ratioQ : ℚ
deriving DecidableEq, Repr

/-- Aggregate statistics merged with raw items and uniqueness data
(`rules.sizes`, `rules.selectors`, `rules.declarations`). -/
structure RuleSizeStats extends AggregateStats where
  items : List Nat
  unique : List (Nat × Nat)
  totalUnique : Nat
  uniquenessRatioQ : ℚ
deriving DecidableEq, Repr

/-- The `rules` section (`src/index.js` lines 600–633). -/
structure RulesReport where
  total : Nat
  empty : TotalRatio
  sizes : RuleSizeStats
  selectors : RuleSizeStats
  declarations : RuleSizeStats
deriving DecidableEq, Repr

/-- The `selectors.specificity` section (`src/index.js` lines 638–655). -/
structure SpecificityReport where
  min : Specificity
  max : Specificity
  sum : Specificity
  mean : ℚ × ℚ × ℚ
  mode : Specificity
  median : ℚ × ℚ × ℚ
  items : List Specificity
  unique : List (String × Nat)
  totalUnique : Nat
  uniquenessRatioQ : ℚ
deriving DecidableEq, Repr

/-- The `selectors.complexity` section (`src/index.js` lines 656–660). -/
structure ComplexitySelReport extends AggregateStats where
  total : Nat
  totalUnique : Nat
  unique : List (Nat × Nat)
  uniquenessRatioQ : ℚ
  items : List Nat
deriving DecidableEq, Repr

/-- A countable collection report extended with a ratio against a broader
total (`selectors.id`, `selectors.accessibility`, `selectors.prefixed`,
`properties.prefixed`, `properties.browserhacks`). -/
structure RatioCount extends CountReport String where
  ratioQ : ℚ
deriving DecidableEq, Repr

/-- The `selectors` section (`src/index.js` lines 634–676). -/
structure SelectorsReport where
  total : Nat
  totalUnique : Nat
  uniquenessRatioQ : ℚ
  specificity : SpecificityReport
  complexity : ComplexitySelReport
  id : RatioCount
  accessibility : RatioCount
  keyframes : CountReport String
  prefixed : RatioCount
deriving DecidableEq, Repr

/-- The `declarations.importants` section (`src/index.js` lines 686–693). -/
structure ImportantsReport where
  total : Nat
  ratioQ : ℚ
  inKeyframes : TotalRatio
deriving DecidableEq, Repr

/-- The `declarations` section (`src/index.js` lines 677–694). -/
structure DeclarationsReport where
  total : Nat
  totalUnique : Nat
  uniquenessRatioQ : ℚ
  unique : TotalRatio
  importants : ImportantsReport
deriving DecidableEq, Repr

/-- The `properties.custom.importants` section (`src/index.js` 708–713). -/
structure ImportantCustomReport extends CountReport String where
  ratioQ : ℚ
deriving DecidableEq, Repr

/-- The `properties.custom` section (`src/index.js` lines 704–715). -/
structure CustomPropsReport extends CountReport String where
  ratioQ : ℚ
  importants : ImportantCustomReport
deriving DecidableEq, Repr

/-- The `properties` section (`src/index.js` lines 695–721). -/
structure PropertiesReport extends CountReport String where
  prefixed : RatioCount
  custom : CustomPropsReport
  browserhacks : RatioCount
  complexity : AggregateStats
deriving DecidableEq, Repr

/-- The `values.colors` section (`src/index.js` lines 723–728). -/
structure ColorsReport extends ContextReport where
  formats : CountReport String
deriving DecidableEq, Repr

/-- The `values.animations` section (`src/index.js` lines 736–739). -/
structure AnimationsReport where
  durations : CountReport String
  timingFunctions : CountReport String
deriving DecidableEq, Repr

/-- The `values` section (`src/index.js` lines 722–743). -/
structure ValuesReport where
  colors : ColorsReport
  gradients : CountReport String
  fontFamilies : CountReport String
  fontSizes : CountReport String
  lineHeights : CountReport String
  zindexes : CountReport String
  textShadows : CountReport String
  boxShadows : CountReport String
  animations : AnimationsReport
  prefixes : CountReport String
  browserhacks : CountReport String
  units : ContextReport
deriving DecidableEq, Repr

/-- The `__meta__` section (`src/index.js` lines 744–748): differences of
wall-clock readings taken during the call. -/
structure MetaReport where
  parseTime : Nat
  analyzeTime : Nat
  total : Nat
deriving DecidableEq, Repr

/-- The full report returned by `analyze` (`src/index.js` lines 547–749). -/
structure Report where
  stylesheet : StylesheetReport
  atrules : AtrulesReport
  rules : RulesReport
  selectors : SelectorsReport
  declarations : DeclarationsReport
  properties : PropertiesReport
  values : ValuesReport
  meta : MetaReport
deriving DecidableEq, Repr

/-- Report assembly (`src/index.js` lines 531–749), a pure function of the
final accumulator state plus the parser-provided inputs (comment list, source
length, line range) and the wall-clock readings `clock` (the five `Date.now()`
calls, in order: start, startParse, startAnalysis, and the two reads in
`__meta__`). -/
def buildReport (s : AnalyzerState) (comments : List String)
    (cssLen startLine endLine : Nat) (clock : List Nat) : Report :=
  let totalSelectors := s.selectors.selectorComplexities.length
  let specificitiesA := aggregateOf s.selectors.specificityA
  let specificitiesB := aggregateOf s.selectors.specificityB
  let specificitiesC := aggregateOf s.selectors.specificityC
  let uniqueSpecificitiesCount := countOf s.selectors.uniqueSpecificities
  let complexityCount := countOf s.selectors.selectorComplexities
  let totalUniqueSelectors := (firstDedup s.selectors.uniqueSelectors).length
  let uniqueRuleSize := countOf s.rules.ruleSizes
  let uniqueSelectorsPerRule := countOf s.rules.selectorsPerRule
  let uniqueDeclarationsPerRule := countOf s.rules.declarationsPerRule
  let totalUniqueDeclarations := (firstDedup s.declarations.uniqueDeclarations).length
  { stylesheet :=
    { sourceLinesOfCode :=
        s.atrules.totalAtRules + totalSelectors + s.declarations.totalDeclarations + s.selectors.keyframeSelectors.length
      linesOfCode := endLine - startLine + 1
      size := cssLen
      comments := { total := comments.length, size := (comments.map String.length).sum }
      embeddedContent :=
      { toCountReport := countOf s.embedded.embeds
        size := { total := s.embedded.embedSize, ratioQ := ratioOf s.embedded.embedSize cssLen }
        types :=
        { total := s.embedded.embedTypesTotal
          totalUnique := s.embedded.embedTypesUnique.length
          uniquenessRatioQ := ratioOf s.embedded.embedTypesUnique.length s.embedded.embedTypesTotal
          unique := s.embedded.embedTypesUnique } } }
    atrules :=
    { fontface :=
      { total := s.atrules.fontfaces.length
        totalUnique := s.atrules.fontfaces.length
        unique := s.atrules.fontfaces
        uniquenessRatioQ := if s.atrules.fontfaces.length = 0 then 0 else 1 }
      imports := countOf s.atrules.imports
      media :=
      { toCountReport := countOf s.atrules.medias
        browserhacks := countOf s.atrules.mediaBrowserhacks }
      charset := countOf s.atrules.charsets
      supports :=
      { toCountReport := countOf s.atrules.supports
        browserhacks := countOf s.atrules.supportsBrowserhacks }
      keyframes :=
      { toCountReport := countOf s.atrules.keyframes
        prefixed :=
        { toCountReport := countOf s.atrules.prefixedKeyframes
          ratioQ := ratioOf s.atrules.prefixedKeyframes.length s.atrules.keyframes.length } }
      container := countOf s.atrules.containers
      layer := countOf s.atrules.layers }
    rules :=
    { total := s.rules.totalRules
      empty := { total := s.rules.emptyRules, ratioQ := ratioOf s.rules.emptyRules s.rules.totalRules }
      sizes :=
      { toAggregateStats := aggregateOf s.rules.ruleSizes
        items := s.rules.ruleSizes
        unique := uniqueRuleSize.unique
        totalUnique := uniqueRuleSize.totalUnique
        uniquenessRatioQ := uniqueRuleSize.uniquenessRatioQ }
      selectors :=
      { toAggregateStats := aggregateOf s.rules.selectorsPerRule
        items := s.rules.selectorsPerRule
        unique := uniqueSelectorsPerRule.unique
        totalUnique := uniqueSelectorsPerRule.totalUnique
        uniquenessRatioQ := uniqueSelectorsPerRule.uniquenessRatioQ }
      declarations :=
      { toAggregateStats := aggregateOf s.rules.declarationsPerRule
        items := s.rules.declarationsPerRule
        unique := uniqueDeclarationsPerRule.unique
        totalUnique := uniqueDeclarationsPerRule.totalUnique
        uniquenessRatioQ := uniqueDeclarationsPerRule.uniquenessRatioQ } }
    selectors :=
    { total := totalSelectors
      totalUnique := totalUniqueSelectors
      uniquenessRatioQ := ratioOf totalUniqueSelectors totalSelectors
      specificity :=
      { min := s.selectors.minSpecificity.getD (0, 0, 0)
        max := s.selectors.maxSpecificity.getD (0, 0, 0)
        sum := (specificitiesA.sum, specificitiesB.sum, specificitiesC.sum)
        mean := (specificitiesA.mean, specificitiesB.mean, specificitiesC.mean)
        mode := (specificitiesA.mode, specificitiesB.mode, specificitiesC.mode)
        median := (specificitiesA.median, specificitiesB.median, specificitiesC.median)
        items := s.selectors.specificities
        unique := uniqueSpecificitiesCount.unique
        totalUnique := uniqueSpecificitiesCount.totalUnique
        uniquenessRatioQ := uniqueSpecificitiesCount.uniquenessRatioQ }
      complexity :=
      { toAggregateStats := aggregateOf s.selectors.selectorComplexities
        total := complexityCount.total
        totalUnique := complexityCount.totalUnique
        unique := complexityCount.unique
        uniquenessRatioQ := complexityCount.uniquenessRatioQ
        items := s.selectors.selectorComplexities }
      id :=
      { toCountReport := countOf s.selectors.ids
        ratioQ := ratioOf s.selectors.ids.length totalSelectors }
      accessibility :=
      { toCountReport := countOf s.selectors.a11y
        ratioQ := ratioOf s.selectors.a11y.length totalSelectors }
      keyframes := countOf s.selectors.keyframeSelectors
      prefixed :=
      { toCountReport := countOf s.selectors.prefixedSelectors
        ratioQ := ratioOf s.selectors.prefixedSelectors.length totalSelectors } }
    declarations :=
    { total := s.declarations.totalDeclarations
      totalUnique := totalUniqueDeclarations
      uniquenessRatioQ := ratioOf totalUniqueDeclarations s.declarations.totalDeclarations
      unique :=
      { total := totalUniqueDeclarations
        ratioQ := ratioOf totalUniqueDeclarations s.declarations.totalDeclarations }
      importants :=
      { total := s.declarations.importantDeclarations
        ratioQ := ratioOf s.declarations.importantDeclarations s.declarations.totalDeclarations
        inKeyframes :=
        { total := s.declarations.importantsInKeyframes
          ratioQ := ratioOf s.declarations.importantsInKeyframes s.declarations.importantDeclarations } } }
    properties :=
    { toCountReport := countOf s.props.properties
      prefixed :=
      { toCountReport := countOf s.props.propertyVendorPrefixes
        ratioQ := ratioOf s.props.propertyVendorPrefixes.length s.props.properties.length }
      custom :=
      { toCountReport := countOf s.props.customProperties
        ratioQ := ratioOf s.props.customProperties.length s.props.properties.length
        importants :=
        { toCountReport := countOf s.props.importantCustomProperties
          ratioQ := ratioOf s.props.importantCustomProperties.length s.props.customProperties.length } }
      browserhacks :=
      { toCountReport := countOf s.props.propertyHacks
        ratioQ := ratioOf s.props.propertyHacks.length s.props.properties.length }
      complexity := aggregateOf s.props.propertyComplexities }
    values :=
    { colors :=
      { toContextReport := contextOf s.vals.colors
        formats := countOf s.vals.colorFormats }
      gradients := countOf s.vals.gradients
      fontFamilies := countOf s.vals.fontFamilies
      fontSizes := countOf s.vals.fontSizes
      lineHeights := countOf s.vals.lineHeights
      zindexes := countOf s.vals.zindex
      textShadows := countOf s.vals.textShadows
      boxShadows := countOf s.vals.boxShadows
      animations :=
      { durations := countOf s.vals.durations
        timingFunctions := countOf s.vals.timingFunctions }
      prefixes := countOf s.vals.vendorPrefixedValues
      browserhacks := countOf s.vals.valueBrowserhacks
      units := contextOf s.vals.units }
    meta :=
    { parseTime := clock.getD 2 0 - clock.getD 1 0
      analyzeTime := clock.getD 3 0 - clock.getD 2 0
      total := clock.getD 4 0 - clock.getD 0 0 } }

/-- The `analyze` entry point (`src/index.js` lines 31–750): walk the parsed tree from the
root with empty context and fresh accumulators, then assemble the report.
The external parser's outputs — the AST, the observed comments, the source
length and the source line range — are inputs, as is the sequence of
wall-clock readings taken during the call. -/
def analyze (ast : CssNode) (comments : List String)
    (cssLen startLine endLine : Nat) (clock : List Nat) : Report :=
  buildReport (walkNode {} {} ast) comments cssLen startLine endLine clock

/-- The well-formedness a report ratio field must satisfy, relative to its
denominator: bounded by [0, 1] and zero on a zero denominator. -/
def ratioFieldOk (x : ℚ) (denom : Nat) : Prop :=
  0 ≤ x ∧ x ≤ 1 ∧ (denom = 0 → x = 0)

/-- Invariant of the at-rule accumulators: prefixed keyframes are a subset of
all keyframes, by push count. -/
def AtruleInv (a : AtruleAcc) : Prop :=
  a.prefixedKeyframes.length ≤ a.keyframes.length

/-- Invariant of the rule accumulators: empty rules never outnumber rules. -/
def RuleInv (r : RuleAcc) : Prop :=
  r.emptyRules ≤ r.totalRules

/-- Invariant of the selector accumulators: every per-selector list is pushed
exactly once per recorded selector, so id/accessibility/prefix counts are
bounded by the complexity-sample count and the uniqueness push lists track
it. -/
def SelInv (sel : SelectorAcc) : Prop :=
  sel.uniqueSelectors.length ≤ sel.selectorComplexities.length ∧
  sel.uniqueSpecificities.length = sel.selectorComplexities.length ∧
  sel.ids.length ≤ sel.selectorComplexities.length ∧
  sel.a11y.length ≤ sel.selectorComplexities.length ∧
  sel.prefixedSelectors.length ≤ sel.selectorComplexities.length

/-- Invariant of the declaration accumulators. -/
def DeclInv (d : DeclarationAcc) : Prop :=
  d.uniqueDeclarations.length ≤ d.totalDeclarations ∧
  d.importantDeclarations ≤ d.totalDeclarations ∧
  d.importantsInKeyframes ≤ d.importantDeclarations

/-- Invariant of the property accumulators: each classification is bounded by
the total property count, and important custom properties by custom ones. -/
def PropInv (p : PropertyAcc) : Prop :=
  p.propertyVendorPrefixes.length ≤ p.properties.length ∧
  p.propertyHacks.length ≤ p.properties.length ∧
  p.customProperties.length ≤ p.properties.length ∧
  p.importantCustomProperties.length ≤ p.customProperties.length

/-- Invariant of the embedded-content accumulators: distinct types never
outnumber embeds. -/
def EmbedInv (e : EmbedAcc) : Prop :=
  e.embedTypesUnique.length ≤ e.embedTypesTotal

/-- The cross-accumulator invariant maintained by the traversal; it makes
every report ratio a part-over-whole fraction. -/
def StInv (s : AnalyzerState) : Prop :=
  AtruleInv s.atrules ∧ RuleInv s.rules ∧ SelInv s.selectors ∧
    DeclInv s.declarations ∧ PropInv s.props ∧ EmbedInv s.embedded

/-- The report of the empty stylesheet: the parse of the empty source string
is a `StyleSheet` root with no children, no observed comments, length `0`
(the clock readings are taken as all zero). -/
def emptyReport : Report :=
  analyze (.mk .StyleSheet {} .nil) [] 0 1 1 [0, 0, 0, 0, 0]

theorem firstDedup_length_le {α : Type} [DecidableEq α] (l : List α) :
    (firstDedup l).length ≤ l.length := by
  induction l with
  | nil => simp [firstDedup]
  | cons x xs ih =>
    simp only [firstDedup, List.length_cons]
    have hf := List.length_filter_le (fun y => decide (y ≠ x)) (firstDedup xs)
    omega

theorem ratioOf_nonneg (p t : Nat) : 0 ≤ ratioOf p t := by
  unfold ratioOf
  split
  · exact le_refl 0
  · positivity

theorem ratioOf_le_one {p t : Nat} (h : p ≤ t) : ratioOf p t ≤ 1 := by
  unfold ratioOf
  split
  · exact zero_le_one
  · rename_i ht
    rw [div_le_one (by exact_mod_cast Nat.pos_of_ne_zero ht)]
    exact_mod_cast h

theorem ratioFieldOk_of_le {p t : Nat} (h : p ≤ t) : ratioFieldOk (ratioOf p t) t :=
  ⟨ratioOf_nonneg p t, ratioOf_le_one h, fun h0 => by simp [ratioOf, h0]⟩

theorem countOf_ratioFieldOk {α : Type} [DecidableEq α] (l : List α) :
    ratioFieldOk (countOf l).uniquenessRatioQ (countOf l).total :=
  ratioFieldOk_of_le (firstDedup_length_le l)

theorem contextOf_ratioFieldOk (l : List (String × String)) :
    ratioFieldOk (contextOf l).uniquenessRatioQ (contextOf l).total :=
  ratioFieldOk_of_le ((firstDedup_length_le (l.map Prod.fst)).trans
    (le_of_eq (List.length_map l Prod.fst)))

theorem zeroOne_ratioFieldOk (n : Nat) : ratioFieldOk (if n = 0 then (0 : ℚ) else 1) n := by
  by_cases h : n = 0 <;> simp [ratioFieldOk, h]

theorem visitAtrule_inv {a : AtruleAcc} (n : CssNode) (h : AtruleInv a) :
    AtruleInv (visitAtrule a n) := by
  unfold AtruleInv at h ⊢
  simp only [visitAtrule]
  split_ifs <;> simp [List.length_append] <;> omega

theorem visitRule_inv {r : RuleAcc} (n : CssNode) (h : RuleInv r) :
    RuleInv (visitRule r n) := by
  unfold RuleInv at h ⊢
  simp only [visitRule]
  split_ifs <;> simp [List.length_append] <;> omega

theorem visitSelector_inv {ctx : Ctx} {sel : SelectorAcc} (d : NodeData)
    (h : SelInv sel) : SelInv (visitSelector ctx sel d) := by
  obtain ⟨h1, h2, h3, h4, h5⟩ := h
  unfold SelInv
  simp only [visitSelector]
  split
  · exact ⟨h1, h2, h3, h4, h5⟩
  · refine ⟨?_, ?_, ?_, ?_, ?_⟩ <;>
      simp only [List.length_append, List.length_cons, List.length_nil] <;>
      (try split_ifs) <;>
      (try simp only [List.length_append, List.length_cons, List.length_nil]) <;>
      omega

theorem visitUrl_inv {e : EmbedAcc} (d : NodeData) (h : EmbedInv e) :
    EmbedInv (visitUrl e d) := by
  unfold EmbedInv at h ⊢
  simp only [visitUrl]
  split_ifs <;> (try simp [List.length_append, List.length_map]) <;> omega

theorem visitDeclaration_inv {ctx : Ctx} {dec : DeclarationAcc} {p : PropertyAcc}
    (d : NodeData) (h1 : DeclInv dec) (h2 : PropInv p) :
    DeclInv (visitDeclaration ctx dec p d).1.1 ∧
      PropInv (visitDeclaration ctx dec p d).1.2 := by
  obtain ⟨a1, a2, a3⟩ := h1
  obtain ⟨b1, b2, b3, b4⟩ := h2
  unfold DeclInv PropInv
  simp only [visitDeclaration]
  repeat' split
  all_goals
    refine ⟨⟨?_, ?_, ?_⟩, ?_, ?_, ?_, ?_⟩ <;>
      simp only [List.length_append, List.length_cons, List.length_nil] <;> omega

theorem visitNode_inv {ctx : Ctx} {s : AnalyzerState} (n : CssNode) (h : StInv s) :
    StInv (visitNode ctx s n).1 := by
  obtain ⟨h1, h2, h3, h4, h5, h6⟩ := h
  unfold StInv
  unfold visitNode
  cases n.ntype <;> simp only <;>
    exact ⟨by first | exact visitAtrule_inv n h1 | exact h1,
      by first | exact visitRule_inv n h2 | exact h2,
      by first | exact visitSelector_inv n.data ⟨h3.1, h3.2.1, h3.2.2.1, h3.2.2.2.1,
        h3.2.2.2.2⟩ | exact h3,
      by first | exact (visitDeclaration_inv n.data h4 h5).1 | exact h4,
      by first | exact (visitDeclaration_inv n.data h4 h5).2 | exact h5,
      by first | exact visitUrl_inv n.data h6 | exact h6⟩

mutual
theorem walkNode_inv (ctx : Ctx) (s : AnalyzerState) (n : CssNode) (h : StInv s) :
    StInv (walkNode ctx s n) := by
  cases n with
  | mk t d cs =>
    rw [walkNode]
    split
    · exact visitNode_inv _ h
    · exact walkList_inv _ _ cs (visitNode_inv _ h)

theorem walkList_inv (ctx : Ctx) (s : AnalyzerState) (ns : CssNodeList) (h : StInv s) :
    StInv (walkList ctx s ns) := by
  cases ns with
  | nil => rw [walkList]; exact h
  | cons n rest => rw [walkList]; exact walkList_inv _ _ rest (walkNode_inv _ _ n h)
end

theorem initial_inv : StInv {} := by
  refine ⟨?_, ?_, ⟨?_, ?_, ?_, ?_, ?_⟩, ⟨?_, ?_, ?_⟩, ⟨?_, ?_, ?_, ?_⟩, ?_⟩ <;>
    simp [AtruleInv, RuleInv, EmbedInv]

theorem compareSpecificity_self (x : Specificity) : compareSpecificity x x = 0 := by
  simp [compareSpecificity]

/-- C9: for every input, `stylesheet.sourceLinesOfCode` is exactly the sum of
the at-rule count, the non-keyframe selector count (`selectors.total`), the
declaration count (`declarations.total`) and the keyframe-selector count
(`selectors.keyframes.total`). -/
theorem analyze_sourceLinesOfCode_sum (ast : CssNode) (comments : List String)
    (cssLen startLine endLine : Nat) (clock : List Nat) :
    (analyze ast comments cssLen startLine endLine clock).stylesheet.sourceLinesOfCode =
      (walkNode {} {} ast).atrules.totalAtRules +
        (analyze ast comments cssLen startLine endLine clock).selectors.total +
        (analyze ast comments cssLen startLine endLine clock).declarations.total +
        (analyze ast comments cssLen startLine endLine clock).selectors.keyframes.total :=
  rfl

/-- C5: a declaration positioned inside an at-rule prelude is skipped
entirely — the walk neither records anything (the state is unchanged, so
`declarations.total`, the unique-declaration list and all property
accumulators are untouched) nor descends into its subtree. -/
theorem analyze_prelude_declaration_skipped (ctx : Ctx) (s : AnalyzerState)
    (d : NodeData) (cs : CssNodeList) (h : ctx.atrulePrelude = true) :
    walkNode ctx s (.mk .Declaration d cs) = s := by
  simp [walkNode, visitNode, visitDeclaration, CssNode.ntype, CssNode.data, h]

theorem analyze_prelude_declaration_skipped_witness :
    walkNode { atrulePrelude := true } {}
        (.mk .Declaration { property := "display", text := "display: flex" }
          (.cons (.mk .Value { text := "flex" } .nil) .nil)) =
      ({} : AnalyzerState) :=
  analyze_prelude_declaration_skipped { atrulePrelude := true } {}
    { property := "display", text := "display: flex" }
    (.cons (.mk .Value { text := "flex" } .nil) .nil) rfl

/-- C4: a selector lexically inside a `*keyframes` at-rule is recorded only
in the keyframe-selector counter and its subtree is pruned: the walk result
differs from the incoming state exactly by the one new keyframe-selector
entry, so the specificity, complexity, id, accessibility, prefix and
unique-selector accumulators are untouched and no specificity is computed. -/
theorem analyze_keyframe_selector_only_counted (ctx : Ctx) (s : AnalyzerState)
    (d : NodeData) (cs : CssNodeList) (h : inKeyframes ctx = true) :
    walkNode ctx s (.mk .Selector d cs) =
      { s with selectors := { s.selectors with
          keyframeSelectors := s.selectors.keyframeSelectors ++ [trimStr d.text] } } := by
  simp [walkNode, visitNode, visitSelector, CssNode.ntype, CssNode.data, h]

theorem analyze_keyframe_selector_only_counted_witness :
    walkNode { atrule := some "keyframes" } {}
        (.mk .Selector { text := "0%", specA := 5, specB := 5, specC := 5, complexity := 9 }
          (.cons (.mk .Other {} .nil) .nil)) =
      { selectors := { keyframeSelectors := ["0%"] } } :=
  analyze_keyframe_selector_only_counted { atrule := some "keyframes" } {}
    { text := "0%", specA := 5, specB := 5, specC := 5, complexity := 9 }
    (.cons (.mk .Other {} .nil) .nil) rfl

/-- C1: per visited non-keyframe selector, the tracker the report calls
`min` is replaced by the candidate specificity exactly when
`compareSpecificity current candidate < 0` (ascending lexicographic order on
(a, b, c)), the tracker called `max` exactly when the comparison is positive,
and both are initialized to the first selector's tuple. -/
theorem analyze_specificity_minmax_update (ctx : Ctx) (s : AnalyzerState)
    (d : NodeData) (cs : CssNodeList) (h : inKeyframes ctx = false) :
    (walkNode ctx s (.mk .Selector d cs)).selectors.minSpecificity =
      some (match s.selectors.minSpecificity with
        | none => ((d.specA, d.specB, d.specC) : Specificity)
        | some m =>
          if compareSpecificity m (d.specA, d.specB, d.specC) < 0 then
            (d.specA, d.specB, d.specC)
          else m) ∧
    (walkNode ctx s (.mk .Selector d cs)).selectors.maxSpecificity =
      some (match s.selectors.maxSpecificity with
        | none => ((d.specA, d.specB, d.specC) : Specificity)
        | some m =>
          if compareSpecificity m (d.specA, d.specB, d.specC) > 0 then
            (d.specA, d.specB, d.specC)
          else m) := by
  constructor <;>
    cases hm : s.selectors.minSpecificity <;>
    cases hx : s.selectors.maxSpecificity <;>
    simp [walkNode, visitNode, visitSelector, CssNode.ntype, CssNode.data, h, hm, hx,
      compareSpecificity_self] <;>
    (try split_ifs <;> rfl)

theorem analyze_specificity_minmax_update_witness :
    inKeyframes {} = false ∧
      (walkNode {} {} (.mk .Selector { text := "a", specC := 1 } .nil)).selectors.minSpecificity =
        some ((0, 0, 1) : Specificity) ∧
      (walkNode {} {} (.mk .Selector { text := "a", specC := 1 } .nil)).selectors.maxSpecificity =
        some ((0, 0, 1) : Specificity) :=
  ⟨rfl, analyze_specificity_minmax_update {} {} { text := "a", specC := 1 } .nil rfl⟩

/-- C3: a visited non-keyframe selector contributes exactly one specificity
sample and one complexity sample, and its whole subtree is skipped after
recording — walking the selector with any children (for example the nested
selector list of `:is(a, b)`) gives the same state as walking it with none,
so nested selectors are never recorded separately. -/
theorem analyze_selector_subtree_pruned (ctx : Ctx) (s : AnalyzerState)
    (d : NodeData) (cs : CssNodeList) (h : inKeyframes ctx = false) :
    (walkNode ctx s (.mk .Selector d cs)).selectors.specificities.length =
        s.selectors.specificities.length + 1 ∧
      (walkNode ctx s (.mk .Selector d cs)).selectors.selectorComplexities.length =
        s.selectors.selectorComplexities.length + 1 ∧
      walkNode ctx s (.mk .Selector d cs) = walkNode ctx s (.mk .Selector d .nil) := by
  refine ⟨?_, ?_, rfl⟩ <;>
    simp [walkNode, visitNode, visitSelector, CssNode.ntype, CssNode.data, h]

theorem analyze_selector_subtree_pruned_witness :
    inKeyframes {} = false ∧
      (walkNode {} {}
          (.mk .Selector { text := "x:is(a, b)", specC := 2, complexity := 3 }
            (.cons
              (.mk .SelectorList {}
                (.cons (.mk .Selector { text := "a", specC := 1 } .nil)
                  (.cons (.mk .Selector { text := "b", specC := 1 } .nil)
                    .nil)))
              .nil))).selectors.specificities.length =
        ({} : AnalyzerState).selectors.specificities.length + 1 :=
  ⟨rfl,
    (analyze_selector_subtree_pruned {} {}
      { text := "x:is(a, b)", specC := 2, complexity := 3 }
      (.cons
        (.mk .SelectorList {}
          (.cons (.mk .Selector { text := "a", specC := 1 } .nil)
            (.cons (.mk .Selector { text := "b", specC := 1 } .nil) .nil)))
        .nil) rfl).1⟩

/-- C10: every visited `@font-face` at-rule appends exactly one record —
identical records are never merged — and the report's `atrules.fontface`
section has `total = totalUnique =` that record count, with a uniqueness
ratio that is `0` when the total is `0` and exactly `1` otherwise. -/
theorem analyze_fontface_counts :
    (∀ (ctx : Ctx) (s : AnalyzerState) (d : NodeData) (cs : CssNodeList),
      d.name = "font-face" →
        (visitNode ctx s (.mk .Atrule d cs)).1.atrules.fontfaces.length =
          s.atrules.fontfaces.length + 1) ∧
    (∀ (ast : CssNode) (comments : List String) (cssLen startLine endLine : Nat)
        (clock : List Nat),
      (analyze ast comments cssLen startLine endLine clock).atrules.fontface.total =
          (walkNode {} {} ast).atrules.fontfaces.length ∧
        (analyze ast comments cssLen startLine endLine clock).atrules.fontface.totalUnique =
          (walkNode {} {} ast).atrules.fontfaces.length ∧
        ((analyze ast comments cssLen startLine endLine clock).atrules.fontface.total = 0 →
          (analyze ast comments cssLen startLine endLine
            clock).atrules.fontface.uniquenessRatioQ = 0) ∧
        ((analyze ast comments cssLen startLine endLine clock).atrules.fontface.total ≠ 0 →
          (analyze ast comments cssLen startLine endLine
            clock).atrules.fontface.uniquenessRatioQ = 1)) := by
  constructor
  · intro ctx s d cs h
    simp [visitNode, visitAtrule, CssNode.ntype, CssNode.data, h]
  · intro ast comments cssLen startLine endLine clock
    refine ⟨rfl, rfl, ?_, ?_⟩ <;>
      · intro h
        simp only [analyze, buildReport] at h ⊢
        simp [h]

theorem analyze_fontface_counts_witness :
    (visitNode {} {} (.mk .Atrule { name := "font-face" } .nil)).1.atrules.fontfaces.length =
      ({} : AnalyzerState).atrules.fontfaces.length + 1 :=
  analyze_fontface_counts.1 {} {} { name := "font-face" } .nil rfl

/-- C8: inside the nested color sub-traversal, an identifier whose name
length is in 3–20 is tested against named colors, then CSS Level-4 color
keywords, then system colors; the first match records one color with the
format tag `"named"`, the lower-cased keyword name, or `"system"`
respectively and keeps walking the children (no pruning), while an
identifier outside that length range or matching none of the three sets is
pruned and records nothing. -/
theorem analyze_color_identifier_classification (property : String) (acc : ColorAcc)
    (d : NodeData) (cs : CssNodeList) :
    (3 ≤ d.name.length → d.name.length ≤ 20 → namedColors.contains d.name = true →
      colorWalkNode property acc (.mk .Identifier d cs) =
        colorWalkList property
          { acc with
            colors := acc.colors ++ [(trimStr d.text, property)]
            colorFormats := acc.colorFormats ++ ["named"] } cs) ∧
    (3 ≤ d.name.length → d.name.length ≤ 20 → namedColors.contains d.name = false →
      colorKeywords.contains d.name = true →
      colorWalkNode property acc (.mk .Identifier d cs) =
        colorWalkList property
          { acc with
            colors := acc.colors ++ [(trimStr d.text, property)]
            colorFormats := acc.colorFormats ++ [toLowerStr d.name] } cs) ∧
    (3 ≤ d.name.length → d.name.length ≤ 20 → namedColors.contains d.name = false →
      colorKeywords.contains d.name = false → systemColors.contains d.name = true →
      colorWalkNode property acc (.mk .Identifier d cs) =
        colorWalkList property
          { acc with
            colors := acc.colors ++ [(trimStr d.text, property)]
            colorFormats := acc.colorFormats ++ ["system"] } cs) ∧
    (3 ≤ d.name.length → d.name.length ≤ 20 → namedColors.contains d.name = false →
      colorKeywords.contains d.name = false → systemColors.contains d.name = false →
      colorWalkNode property acc (.mk .Identifier d cs) = acc) ∧
    (d.name.length < 3 ∨ 20 < d.name.length →
      colorWalkNode property acc (.mk .Identifier d cs) = acc) := by
  refine ⟨?_, ?_, ?_, ?_, ?_⟩
  · intro h3 h20 hn
    have hg : (decide (d.name.length > 20) || decide (d.name.length < 3)) = false := by
      simp; omega
    simp at hn
    simp [colorWalkNode, colorVisit, CssNode.ntype, CssNode.data, hg, hn]
  · intro h3 h20 hn hk
    have hg : (decide (d.name.length > 20) || decide (d.name.length < 3)) = false := by
      simp; omega
    simp at hn
    simp at hk
    simp [colorWalkNode, colorVisit, CssNode.ntype, CssNode.data, hg, hn, hk]
  · intro h3 h20 hn hk hs
    have hg : (decide (d.name.length > 20) || decide (d.name.length < 3)) = false := by
      simp; omega
    simp at hn hk
    simp at hs
    simp [colorWalkNode, colorVisit, CssNode.ntype, CssNode.data, hg, hn, hk, hs]
  · intro h3 h20 hn hk hs
    have hg : (decide (d.name.length > 20) || decide (d.name.length < 3)) = false := by
      simp; omega
    simp at hn hk hs
    simp [colorWalkNode, colorVisit, CssNode.ntype, CssNode.data, hg, hn, hk, hs]
  · intro hout
    have hg : (decide (d.name.length > 20) || decide (d.name.length < 3)) = true := by
      simp; omega
    simp [colorWalkNode, colorVisit, CssNode.ntype, CssNode.data, hg]

theorem analyze_color_identifier_classification_witness :
    (3 ≤ ("red" : String).length ∧
      colorWalkNode "color" ⟨[], [], []⟩
          (.mk .Identifier { name := "red", text := "red" } .nil) =
        ⟨[("red", "color")], ["named"], []⟩) ∧
      colorWalkNode "color" ⟨[], [], []⟩
          (.mk .Identifier { name := "zz" } .nil) =
        ⟨[], [], []⟩ :=
  ⟨⟨by decide,
    (analyze_color_identifier_classification "color" ⟨[], [], []⟩
        { name := "red", text := "red" } .nil).1 (by decide) (by decide) (by decide)⟩,
    (analyze_color_identifier_classification "color" ⟨[], [], []⟩
        { name := "zz" } .nil).2.2.2.2 (by decide)⟩

/-- C2 counterexample: the report includes the `__meta__` timing fields,
which are differences of wall-clock readings; two calls on the same source
text observing different clocks return reports that are not identical. -/
theorem analyze_meta_not_idempotent :
    analyze (.mk .StyleSheet {} .nil) [] 0 1 1 [0, 0, 0, 0, 1] ≠
      analyze (.mk .StyleSheet {} .nil) [] 0 1 1 [0, 0, 0, 0, 2] := by
  intro h
  have := congrArg (fun r => r.meta.total) h
  simp [analyze, buildReport] at this

/-- C2 amended: the analysis is deterministic in everything except
`__meta__` — for one source text (one parsed tree, comment list, length and
line range), any two calls agree on all seven data sections of the report,
whatever wall-clock readings the two calls observe. -/
theorem analyze_deterministic_outside_meta (ast : CssNode) (comments : List String)
    (cssLen startLine endLine : Nat) (clock1 clock2 : List Nat) :
    (analyze ast comments cssLen startLine endLine clock1).stylesheet =
        (analyze ast comments cssLen startLine endLine clock2).stylesheet ∧
      (analyze ast comments cssLen startLine endLine clock1).atrules =
        (analyze ast comments cssLen startLine endLine clock2).atrules ∧
      (analyze ast comments cssLen startLine endLine clock1).rules =
        (analyze ast comments cssLen startLine endLine clock2).rules ∧
      (analyze ast comments cssLen startLine endLine clock1).selectors =
        (analyze ast comments cssLen startLine endLine clock2).selectors ∧
      (analyze ast comments cssLen startLine endLine clock1).declarations =
        (analyze ast comments cssLen startLine endLine clock2).declarations ∧
      (analyze ast comments cssLen startLine endLine clock1).properties =
        (analyze ast comments cssLen startLine endLine clock2).properties ∧
      (analyze ast comments cssLen startLine endLine clock1).values =
        (analyze ast comments cssLen startLine endLine clock2).values :=
  ⟨rfl, rfl, rfl, rfl, rfl, rfl, rfl⟩

set_option maxRecDepth 4000 in
set_option maxHeartbeats 1000000 in
set_option synthInstance.maxSize 2000 in
set_option synthInstance.maxHeartbeats 1000000 in
/-- C7: analyzing the empty stylesheet (the parse of the empty source string:
a `StyleSheet` root with no children, no comments, source length `0`) yields
a report in which every total field is `0`, every ratio field is `0`, and
both `selectors.specificity.min` and `selectors.specificity.max` are the
default tuple `(0, 0, 0)`. -/
theorem analyze_empty_stylesheet_report :
    emptyReport.stylesheet.sourceLinesOfCode = 0 ∧
    emptyReport.stylesheet.size = 0 ∧
    emptyReport.stylesheet.comments.total = 0 ∧
    emptyReport.stylesheet.comments.size = 0 ∧
    emptyReport.stylesheet.embeddedContent.total = 0 ∧
    emptyReport.stylesheet.embeddedContent.totalUnique = 0 ∧
    emptyReport.stylesheet.embeddedContent.uniquenessRatioQ = 0 ∧
    emptyReport.stylesheet.embeddedContent.size.total = 0 ∧
    emptyReport.stylesheet.embeddedContent.size.ratioQ = 0 ∧
    emptyReport.stylesheet.embeddedContent.types.total = 0 ∧
    emptyReport.stylesheet.embeddedContent.types.totalUnique = 0 ∧
    emptyReport.stylesheet.embeddedContent.types.uniquenessRatioQ = 0 ∧
    emptyReport.atrules.fontface.total = 0 ∧
    emptyReport.atrules.fontface.totalUnique = 0 ∧
    emptyReport.atrules.fontface.uniquenessRatioQ = 0 ∧
    emptyReport.atrules.imports.total = 0 ∧
    emptyReport.atrules.imports.totalUnique = 0 ∧
    emptyReport.atrules.imports.uniquenessRatioQ = 0 ∧
    emptyReport.atrules.media.total = 0 ∧
    emptyReport.atrules.media.totalUnique = 0 ∧
    emptyReport.atrules.media.uniquenessRatioQ = 0 ∧
    emptyReport.atrules.media.browserhacks.total = 0 ∧
    emptyReport.atrules.media.browserhacks.totalUnique = 0 ∧
    emptyReport.atrules.media.browserhacks.uniquenessRatioQ = 0 ∧
    emptyReport.atrules.charset.total = 0 ∧
    emptyReport.atrules.charset.totalUnique = 0 ∧
    emptyReport.atrules.charset.uniquenessRatioQ = 0 ∧
    emptyReport.atrules.supports.total = 0 ∧
    emptyReport.atrules.supports.totalUnique = 0 ∧
    emptyReport.atrules.supports.uniquenessRatioQ = 0 ∧
    emptyReport.atrules.supports.browserhacks.total = 0 ∧
    emptyReport.atrules.supports.browserhacks.totalUnique = 0 ∧
    emptyReport.atrules.supports.browserhacks.uniquenessRatioQ = 0 ∧
    emptyReport.atrules.keyframes.total = 0 ∧
    emptyReport.atrules.keyframes.totalUnique = 0 ∧
    emptyReport.atrules.keyframes.uniquenessRatioQ = 0 ∧
    emptyReport.atrules.keyframes.prefixed.total = 0 ∧
    emptyReport.atrules.keyframes.prefixed.totalUnique = 0 ∧
    emptyReport.atrules.keyframes.prefixed.uniquenessRatioQ = 0 ∧
    emptyReport.atrules.keyframes.prefixed.ratioQ = 0 ∧
    emptyReport.atrules.container.total = 0 ∧
    emptyReport.atrules.container.totalUnique = 0 ∧
    emptyReport.atrules.container.uniquenessRatioQ = 0 ∧
    emptyReport.atrules.layer.total = 0 ∧
    emptyReport.atrules.layer.totalUnique = 0 ∧
    emptyReport.atrules.layer.uniquenessRatioQ = 0 ∧
    emptyReport.rules.total = 0 ∧
    emptyReport.rules.empty.total = 0 ∧
    emptyReport.rules.empty.ratioQ = 0 ∧
    emptyReport.rules.sizes.count = 0 ∧
    emptyReport.rules.sizes.totalUnique = 0 ∧
    emptyReport.rules.sizes.uniquenessRatioQ = 0 ∧
    emptyReport.rules.selectors.count = 0 ∧
    emptyReport.rules.selectors.totalUnique = 0 ∧
    emptyReport.rules.selectors.uniquenessRatioQ = 0 ∧
    emptyReport.rules.declarations.count = 0 ∧
    emptyReport.rules.declarations.totalUnique = 0 ∧
    emptyReport.rules.declarations.uniquenessRatioQ = 0 ∧
    emptyReport.selectors.total = 0 ∧
    emptyReport.selectors.totalUnique = 0 ∧
    emptyReport.selectors.uniquenessRatioQ = 0 ∧
    emptyReport.selectors.specificity.min = (0, 0, 0) ∧
    emptyReport.selectors.specificity.max = (0, 0, 0) ∧
    emptyReport.selectors.specificity.totalUnique = 0 ∧
    emptyReport.selectors.specificity.uniquenessRatioQ = 0 ∧
    emptyReport.selectors.complexity.total = 0 ∧
    emptyReport.selectors.complexity.totalUnique = 0 ∧
    emptyReport.selectors.complexity.uniquenessRatioQ = 0 ∧
    emptyReport.selectors.id.total = 0 ∧
    emptyReport.selectors.id.totalUnique = 0 ∧
    emptyReport.selectors.id.uniquenessRatioQ = 0 ∧
    emptyReport.selectors.id.ratioQ = 0 ∧
    emptyReport.selectors.accessibility.total = 0 ∧
    emptyReport.selectors.accessibility.totalUnique = 0 ∧
    emptyReport.selectors.accessibility.uniquenessRatioQ = 0 ∧
    emptyReport.selectors.accessibility.ratioQ = 0 ∧
    emptyReport.selectors.keyframes.total = 0 ∧
    emptyReport.selectors.keyframes.totalUnique = 0 ∧
    emptyReport.selectors.keyframes.uniquenessRatioQ = 0 ∧
    emptyReport.selectors.prefixed.total = 0 ∧
    emptyReport.selectors.prefixed.totalUnique = 0 ∧
    emptyReport.selectors.prefixed.uniquenessRatioQ = 0 ∧
    emptyReport.selectors.prefixed.ratioQ = 0 ∧
    emptyReport.declarations.total = 0 ∧
    emptyReport.declarations.totalUnique = 0 ∧
    emptyReport.declarations.uniquenessRatioQ = 0 ∧
    emptyReport.declarations.unique.total = 0 ∧
    emptyReport.declarations.unique.ratioQ = 0 ∧
    emptyReport.declarations.importants.total = 0 ∧
    emptyReport.declarations.importants.ratioQ = 0 ∧
    emptyReport.declarations.importants.inKeyframes.total = 0 ∧
    emptyReport.declarations.importants.inKeyframes.ratioQ = 0 ∧
    emptyReport.properties.total = 0 ∧
    emptyReport.properties.totalUnique = 0 ∧
    emptyReport.properties.uniquenessRatioQ = 0 ∧
    emptyReport.properties.prefixed.total = 0 ∧
    emptyReport.properties.prefixed.totalUnique = 0 ∧
    emptyReport.properties.prefixed.uniquenessRatioQ = 0 ∧
    emptyReport.properties.prefixed.ratioQ = 0 ∧
    emptyReport.properties.custom.total = 0 ∧
    emptyReport.properties.custom.totalUnique = 0 ∧
    emptyReport.properties.custom.uniquenessRatioQ = 0 ∧
    emptyReport.properties.custom.ratioQ = 0 ∧
    emptyReport.properties.custom.importants.total = 0 ∧
    emptyReport.properties.custom.importants.totalUnique = 0 ∧
    emptyReport.properties.custom.importants.uniquenessRatioQ = 0 ∧
    emptyReport.properties.custom.importants.ratioQ = 0 ∧
    emptyReport.properties.browserhacks.total = 0 ∧
    emptyReport.properties.browserhacks.totalUnique = 0 ∧
    emptyReport.properties.browserhacks.uniquenessRatioQ = 0 ∧
    emptyReport.properties.browserhacks.ratioQ = 0 ∧
    emptyReport.values.colors.total = 0 ∧
    emptyReport.values.colors.totalUnique = 0 ∧
    emptyReport.values.colors.uniquenessRatioQ = 0 ∧
    emptyReport.values.colors.formats.total = 0 ∧
    emptyReport.values.colors.formats.totalUnique = 0 ∧
    emptyReport.values.colors.formats.uniquenessRatioQ = 0 ∧
    emptyReport.values.gradients.total = 0 ∧
    emptyReport.values.gradients.uniquenessRatioQ = 0 ∧
    emptyReport.values.fontFamilies.total = 0 ∧
    emptyReport.values.fontFamilies.uniquenessRatioQ = 0 ∧
    emptyReport.values.fontSizes.total = 0 ∧
    emptyReport.values.fontSizes.uniquenessRatioQ = 0 ∧
    emptyReport.values.lineHeights.total = 0 ∧
    emptyReport.values.lineHeights.uniquenessRatioQ = 0 ∧
    emptyReport.values.zindexes.total = 0 ∧
    emptyReport.values.zindexes.uniquenessRatioQ = 0 ∧
    emptyReport.values.textShadows.total = 0 ∧
    emptyReport.values.textShadows.uniquenessRatioQ = 0 ∧
    emptyReport.values.boxShadows.total = 0 ∧
    emptyReport.values.boxShadows.uniquenessRatioQ = 0 ∧
    emptyReport.values.animations.durations.total = 0 ∧
    emptyReport.values.animations.durations.uniquenessRatioQ = 0 ∧
    emptyReport.values.animations.timingFunctions.total = 0 ∧
    emptyReport.values.animations.timingFunctions.uniquenessRatioQ = 0 ∧
    emptyReport.values.prefixes.total = 0 ∧
    emptyReport.values.prefixes.uniquenessRatioQ = 0 ∧
    emptyReport.values.browserhacks.total = 0 ∧
    emptyReport.values.browserhacks.uniquenessRatioQ = 0 ∧
    emptyReport.values.units.total = 0 ∧
    emptyReport.values.units.totalUnique = 0 ∧
    emptyReport.values.units.uniquenessRatioQ = 0 := by
  decide

set_option maxRecDepth 4000 in
set_option maxHeartbeats 1000000 in
set_option synthInstance.maxSize 2000 in
set_option synthInstance.maxHeartbeats 1000000 in
/-- C6: every ratio field of the report (each `ratio` and `uniquenessRatio`
entry, the `Q`-suffixed fields of this embedding) lies in [0, 1] and equals
`0` whenever its denominator is `0`.  The hypothesis is the parser guarantee
linking the tree to the source text: the embedded `data:` URIs it reports
are substrings of the source, so their total size is at most the source
length. -/
theorem analyze_ratio_fields_bounded (ast : CssNode) (comments : List String)
    (cssLen startLine endLine : Nat) (clock : List Nat)
    (hembed : (walkNode {} {} ast).embedded.embedSize ≤ cssLen) :
    let r := analyze ast comments cssLen startLine endLine clock
    ratioFieldOk r.stylesheet.embeddedContent.uniquenessRatioQ
        r.stylesheet.embeddedContent.total ∧
    ratioFieldOk r.stylesheet.embeddedContent.size.ratioQ r.stylesheet.size ∧
    ratioFieldOk r.stylesheet.embeddedContent.types.uniquenessRatioQ
        r.stylesheet.embeddedContent.types.total ∧
    ratioFieldOk r.atrules.fontface.uniquenessRatioQ r.atrules.fontface.total ∧
    ratioFieldOk r.atrules.imports.uniquenessRatioQ r.atrules.imports.total ∧
    ratioFieldOk r.atrules.media.uniquenessRatioQ r.atrules.media.total ∧
    ratioFieldOk r.atrules.media.browserhacks.uniquenessRatioQ
        r.atrules.media.browserhacks.total ∧
    ratioFieldOk r.atrules.charset.uniquenessRatioQ r.atrules.charset.total ∧
    ratioFieldOk r.atrules.supports.uniquenessRatioQ r.atrules.supports.total ∧
    ratioFieldOk r.atrules.supports.browserhacks.uniquenessRatioQ
        r.atrules.supports.browserhacks.total ∧
    ratioFieldOk r.atrules.keyframes.uniquenessRatioQ r.atrules.keyframes.total ∧
    ratioFieldOk r.atrules.keyframes.prefixed.uniquenessRatioQ
        r.atrules.keyframes.prefixed.total ∧
    ratioFieldOk r.atrules.keyframes.prefixed.ratioQ r.atrules.keyframes.total ∧
    ratioFieldOk r.atrules.container.uniquenessRatioQ r.atrules.container.total ∧
    ratioFieldOk r.atrules.layer.uniquenessRatioQ r.atrules.layer.total ∧
    ratioFieldOk r.rules.empty.ratioQ r.rules.total ∧
    ratioFieldOk r.rules.sizes.uniquenessRatioQ r.rules.sizes.count ∧
    ratioFieldOk r.rules.selectors.uniquenessRatioQ r.rules.selectors.count ∧
    ratioFieldOk r.rules.declarations.uniquenessRatioQ r.rules.declarations.count ∧
    ratioFieldOk r.selectors.uniquenessRatioQ r.selectors.total ∧
    ratioFieldOk r.selectors.specificity.uniquenessRatioQ r.selectors.total ∧
    ratioFieldOk r.selectors.complexity.uniquenessRatioQ r.selectors.complexity.total ∧
    ratioFieldOk r.selectors.id.uniquenessRatioQ r.selectors.id.total ∧
    ratioFieldOk r.selectors.id.ratioQ r.selectors.total ∧
    ratioFieldOk r.selectors.accessibility.uniquenessRatioQ
        r.selectors.accessibility.total ∧
    ratioFieldOk r.selectors.accessibility.ratioQ r.selectors.total ∧
    ratioFieldOk r.selectors.keyframes.uniquenessRatioQ r.selectors.keyframes.total ∧
    ratioFieldOk r.selectors.prefixed.uniquenessRatioQ r.selectors.prefixed.total ∧
    ratioFieldOk r.selectors.prefixed.ratioQ r.selectors.total ∧
    ratioFieldOk r.declarations.uniquenessRatioQ r.declarations.total ∧
    ratioFieldOk r.declarations.unique.ratioQ r.declarations.total ∧
    ratioFieldOk r.declarations.importants.ratioQ r.declarations.total ∧
    ratioFieldOk r.declarations.importants.inKeyframes.ratioQ
        r.declarations.importants.total ∧
    ratioFieldOk r.properties.uniquenessRatioQ r.properties.total ∧
    ratioFieldOk r.properties.prefixed.uniquenessRatioQ r.properties.prefixed.total ∧
    ratioFieldOk r.properties.prefixed.ratioQ r.properties.total ∧
    ratioFieldOk r.properties.custom.uniquenessRatioQ r.properties.custom.total ∧
    ratioFieldOk r.properties.custom.ratioQ r.properties.total ∧
    ratioFieldOk r.properties.custom.importants.uniquenessRatioQ
        r.properties.custom.importants.total ∧
    ratioFieldOk r.properties.custom.importants.ratioQ r.properties.custom.total ∧
    ratioFieldOk r.properties.browserhacks.uniquenessRatioQ
        r.properties.browserhacks.total ∧
    ratioFieldOk r.properties.browserhacks.ratioQ r.properties.total ∧
    ratioFieldOk r.values.colors.uniquenessRatioQ r.values.colors.total ∧
    ratioFieldOk r.values.colors.formats.uniquenessRatioQ r.values.colors.formats.total ∧
    ratioFieldOk r.values.gradients.uniquenessRatioQ r.values.gradients.total ∧
    ratioFieldOk r.values.fontFamilies.uniquenessRatioQ r.values.fontFamilies.total ∧
    ratioFieldOk r.values.fontSizes.uniquenessRatioQ r.values.fontSizes.total ∧
    ratioFieldOk r.values.lineHeights.uniquenessRatioQ r.values.lineHeights.total ∧
    ratioFieldOk r.values.zindexes.uniquenessRatioQ r.values.zindexes.total ∧
    ratioFieldOk r.values.textShadows.uniquenessRatioQ r.values.textShadows.total ∧
    ratioFieldOk r.values.boxShadows.uniquenessRatioQ r.values.boxShadows.total ∧
    ratioFieldOk r.values.animations.durations.uniquenessRatioQ
        r.values.animations.durations.total ∧
    ratioFieldOk r.values.animations.timingFunctions.uniquenessRatioQ
        r.values.animations.timingFunctions.total ∧
    ratioFieldOk r.values.prefixes.uniquenessRatioQ r.values.prefixes.total ∧
    ratioFieldOk r.values.browserhacks.uniquenessRatioQ r.values.browserhacks.total ∧
    ratioFieldOk r.values.units.uniquenessRatioQ r.values.units.total := by
  intro r
  obtain ⟨hA, hR, hSel, hDecl, hProp, hEmb⟩ := walkNode_inv {} {} ast initial_inv
  obtain ⟨hs1, hs2, hs3, hs4, hs5⟩ := hSel
  obtain ⟨hd1, hd2, hd3⟩ := hDecl
  obtain ⟨hp1, hp2, hp3, hp4⟩ := hProp
  refine ⟨countOf_ratioFieldOk _, ratioFieldOk_of_le hembed, ratioFieldOk_of_le hEmb,
    zeroOne_ratioFieldOk _, countOf_ratioFieldOk _, countOf_ratioFieldOk _,
    countOf_ratioFieldOk _, countOf_ratioFieldOk _, countOf_ratioFieldOk _,
    countOf_ratioFieldOk _, countOf_ratioFieldOk _, countOf_ratioFieldOk _,
    ratioFieldOk_of_le hA, countOf_ratioFieldOk _, countOf_ratioFieldOk _,
    ratioFieldOk_of_le hR, countOf_ratioFieldOk _, countOf_ratioFieldOk _,
    countOf_ratioFieldOk _, ratioFieldOk_of_le ((firstDedup_length_le _).trans hs1),
    ⟨ratioOf_nonneg _ _, ratioOf_le_one (firstDedup_length_le _), fun h0 => by
      have ht : (walkNode {} {} ast).selectors.uniqueSpecificities.length = 0 :=
        hs2.trans h0
      show ratioOf (firstDedup (walkNode {} {} ast).selectors.uniqueSpecificities).length
          (walkNode {} {} ast).selectors.uniqueSpecificities.length = 0
      rw [ht]
      simp [ratioOf]⟩,
    countOf_ratioFieldOk _, countOf_ratioFieldOk _, ratioFieldOk_of_le hs3,
    countOf_ratioFieldOk _, ratioFieldOk_of_le hs4, countOf_ratioFieldOk _,
    countOf_ratioFieldOk _, ratioFieldOk_of_le hs5,
    ratioFieldOk_of_le ((firstDedup_length_le _).trans hd1),
    ratioFieldOk_of_le ((firstDedup_length_le _).trans hd1),
    ratioFieldOk_of_le hd2, ratioFieldOk_of_le hd3,
    countOf_ratioFieldOk _, countOf_ratioFieldOk _, ratioFieldOk_of_le hp1,
    countOf_ratioFieldOk _, ratioFieldOk_of_le hp3, countOf_ratioFieldOk _,
    ratioFieldOk_of_le hp4, countOf_ratioFieldOk _, ratioFieldOk_of_le hp2,
    contextOf_ratioFieldOk _, countOf_ratioFieldOk _, countOf_ratioFieldOk _,
    countOf_ratioFieldOk _, countOf_ratioFieldOk _, countOf_ratioFieldOk _,
    countOf_ratioFieldOk _, countOf_ratioFieldOk _, countOf_ratioFieldOk _,
    countOf_ratioFieldOk _, countOf_ratioFieldOk _, countOf_ratioFieldOk _,
    countOf_ratioFieldOk _, contextOf_ratioFieldOk _⟩

theorem analyze_ratio_fields_bounded_witness :
    (walkNode {} {} (.mk .StyleSheet {} .nil)).embedded.embedSize ≤ 0 ∧
      ratioFieldOk
        (analyze (.mk .StyleSheet {} .nil) [] 0 1 1
          []).stylesheet.embeddedContent.uniquenessRatioQ
        (analyze (.mk .StyleSheet {} .nil) [] 0 1 1
          []).stylesheet.embeddedContent.total :=
  ⟨by decide,
    (analyze_ratio_fields_bounded (.mk .StyleSheet {} .nil) [] 0 1 1 []
      (by decide)).1⟩
